import Mathlib

/-!
Verification development for the RAG assistant backend
(`backend/llm_assistant.py` and the LLM endpoints of `backend/main.py`).

The Python code is shallowly embedded:

* `LLMAssistant` instance state becomes the `Assistant` structure
  (`model_path`, `model`, `documents`, `index`).
* External collaborators (the sentence-transformer encoder, the llama-cpp
  engine and the filesystem) become an `Env` record of oracles; the
  embedding is parametric in them.
* The faiss `IndexFlatL2` is modelled by its documented semantics:
  `search(q, k)` returns the labels of the `k` stored vectors with the
  smallest *squared* L2 distance to `q`, in ascending-distance order with
  ties broken by ascending label, and pads the result with label `-1`
  when fewer than `k` vectors are stored.
* Fallible external calls return `Except String _`; a `.error e` models a
  raised exception with message `e`.
* `index_documents` keeps the source's empty-corpus error path: for an
  empty batch the encoder returns a one-dimensional (shape `(0,)`) array,
  so `dimension = embeddings.shape[1]` raises `IndexError` after
  `self.documents` has been replaced but before the vector store is
  touched; the error outcome carries that torn state, and `ask_llm`
  propagates the exception.

Machine floats of the source (`temperature=0.7`, `repeat_penalty=1.1`)
are carried as exact rationals: they are configuration data that the
embedded code never computes with.
-/

namespace AWMT

/-- Whether the character list `p` is an initial segment of `s`. -/
def leadsWith : List Char → List Char → Bool
  | [], _ => true
  | _ :: _, [] => false
  | a :: as, b :: bs => a == b && leadsWith as bs

/-- Whether the character list `p` occurs contiguously inside `s`:
Python's `p in s` on strings. -/
def subOccurs (p : List Char) : List Char → Bool
  | [] => p.isEmpty
  | c :: rest => leadsWith p (c :: rest) || subOccurs p rest

/-- Python's `pat in s` substring test. -/
def strContains (s pat : String) : Bool :=
  subOccurs pat.toList s.toList

/-- ASCII lowercasing of one character (all markers the source matches are
ASCII). -/
def lowerChar (c : Char) : Char :=
  if c.toNat ≥ 65 && c.toNat ≤ 90 then Char.ofNat (c.toNat + 32) else c

/-- Python's `str.lower` (ASCII fragment, which is all the source uses). -/
def lowerStr (s : String) : String :=
  String.mk (s.toList.map lowerChar)

/-- `os.path.basename` on POSIX: the part of the path after the last slash. -/
def baseName (path : String) : String :=
  String.mk ((path.toList.reverse.takeWhile (fun c => c != '/')).reverse)

/-- The keyword arguments `_get_model_params` passes to `Llama`.
`n_batch = none` means the key is absent and the engine default applies. -/
structure ModelParams where
  n_ctx : Nat
  n_threads : Nat
  n_gpu_layers : Nat
  n_batch : Option Nat
deriving DecidableEq, Repr

/-- `LLMAssistant._get_model_params`: derive engine parameters from the
lowercased basename of the model path. -/
def get_model_params (model_path : String) : ModelParams :=
  let filename := lowerStr (baseName model_path)
  let params : ModelParams :=
    { n_ctx := 2048, n_threads := 4, n_gpu_layers := 0, n_batch := none }
  let params :=
    if strContains filename "llama" || strContains filename "meta-llama" then
      if strContains filename "3" then { params with n_ctx := 4096 }
      else if strContains filename "2" then { params with n_ctx := 4096 }
      else params
    else if strContains filename "mistral" then { params with n_ctx := 4096 }
    else if strContains filename "phi" then
      if strContains filename "mini" then { params with n_ctx := 4096 }
      else { params with n_ctx := 2048 }
    else if strContains filename "gemma" then { params with n_ctx := 4096 }
    else params
  if strContains filename "q4_0" || strContains filename "q4_k_m" then
    { params with n_batch := some 512 }
  else params

/-- The fixed minimal-parameter retry configuration of `_load_model`:
`n_ctx=2048, n_threads=1` passed explicitly, GPU layers and batch size
left to the engine defaults (0 GPU layers, i.e. CPU only, no GPU). -/
def minimalParams : ModelParams :=
  { n_ctx := 2048, n_threads := 1, n_gpu_layers := 0, n_batch := none }

/-- A document as `main.py` hands it to the assistant: one note, with its
title and content (the `id` and `created_at` fields ride along unchanged
and are irrelevant to indexing, so `id` stands for both). -/
structure Doc where
  id : Nat
  title : String
  content : String
deriving DecidableEq, Repr

/-- A loaded llama-cpp model instance: the path it was loaded from and the
parameters it was constructed with. -/
structure LoadedModel where
  path : String
  params : ModelParams
deriving DecidableEq, Repr

/-- The sampling arguments `generate_response` passes to the model call. -/
structure GenParams where
  max_tokens : Nat
  temperature : ℚ
  repeat_penalty : ℚ
  echo : Bool
deriving DecidableEq, Repr

/-- The mutable state of one `LLMAssistant` instance. -/
structure Assistant where
  model_path : Option String
  model : Option LoadedModel
  documents : List Doc
  index : Option (List (List Int))
deriving DecidableEq, Repr

/-- The state `LLMAssistant.__init__` produces when called with
`model_path=None`, as `main.py` does. -/
def initAssistant : Assistant :=
  { model_path := none, model := none, documents := [], index := none }

/-- The external collaborators, as oracles: the filesystem, the llama-cpp
engine (constructor and generation call, `.error` modelling a raised
exception) and the sentence-transformer encoder (deterministic, vectors
carried as integer coordinate lists). -/
structure Env where
  pathExists : String → Bool
  llamaInit : String → ModelParams → Except String Unit
  llamaGen : LoadedModel → String → GenParams → Except String String
  encode : String → List Int

/-- Squared Euclidean (L2) distance between two vectors, the metric faiss
`IndexFlatL2` ranks by (no square root is taken). -/
def sqDist : List Int → List Int → Int
  | [], _ => 0
  | _ :: _, [] => 0
  | a :: as, b :: bs => (a - b) ^ 2 + sqDist as bs

/-- Ordering of (distance, label) pairs: ascending distance, ties by
ascending label. -/
def pairLe (a b : Int × Int) : Bool :=
  decide (a.1 < b.1) || (decide (a.1 = b.1) && decide (a.2 ≤ b.2))

/-- Insertion into a `pairLe`-sorted list. -/
def insertPair (x : Int × Int) : List (Int × Int) → List (Int × Int)
  | [] => [x]
  | y :: ys => if pairLe x y then x :: y :: ys else y :: insertPair x ys

/-- Insertion sort by `pairLe`. -/
def sortPairs : List (Int × Int) → List (Int × Int)
  | [] => []
  | x :: xs => insertPair x (sortPairs xs)

/-- faiss `IndexFlatL2.search` restricted to one query, returning only the
label row: the labels of the `k` stored vectors closest to `q` in squared
L2 distance, ascending, ties by ascending label; when fewer than `k`
vectors are stored the row is padded with the label `-1`, as the faiss
documentation specifies. -/
def faissSearchLabels (vectors : List (List Int)) (q : List Int) (k : Nat) :
    List Int :=
  let scored := vectors.enum.map (fun p => (sqDist q p.2, (p.1 : Int)))
  let top := (sortPairs scored).take k
  let labels := top.map (fun p => p.2)
  labels ++ List.replicate (k - labels.length) (-1)

/-- Python list subscription `docs[idx]` with an `Int` index: negative
indices count from the end; `none` models an `IndexError`. -/
def pyGetItem (docs : List Doc) (idx : Int) : Option Doc :=
  let j : Int := if idx < 0 then (docs.length : Int) + idx else idx
  if 0 ≤ j ∧ j < (docs.length : Int) then docs.get? j.toNat else none

/-- `LLMAssistant.index_documents`: replace the document list first
(`self.documents = documents`), encode each document's
`title ++ "\n" ++ content`, rebuild the flat index over the resulting
vectors, and return the document count. On an empty corpus the source
raises before the index is touched: the encoder returns a shape-`(0,)`
array for an empty batch, so `dimension = embeddings.shape[1]` raises
`IndexError` — the error outcome carries the state with the document
list already replaced but the previous vector store still in place. -/
def index_documents (env : Env) (st : Assistant) (documents : List Doc) :
    Except String Nat × Assistant :=
  let st1 := { st with documents := documents }
  let texts := documents.map (fun doc => doc.title ++ "\n" ++ doc.content)
  let embeddings := texts.map env.encode
  if documents.isEmpty then
    (.error "IndexError: tuple index out of range", st1)
  else
    (.ok documents.length, { st1 with index := some embeddings })

/-- `LLMAssistant.search_documents`: on an unbuilt index or empty document
list return `[]`; otherwise encode the query, run the faiss search, and
keep `documents[idx]` for every returned label with `idx < len(documents)`
(the Python guard, a signed comparison that the padding label `-1` also
passes, upon which Python subscription selects the last document). -/
def search_documents (env : Env) (st : Assistant) (query : String)
    (top_k : Nat) : List Doc :=
  match st.index with
  | none => []
  | some vectors =>
    if st.documents.isEmpty then []
    else
      let query_vector := env.encode query
      let labels := faissSearchLabels vectors query_vector top_k
      labels.filterMap (fun idx =>
        if idx < (st.documents.length : Int) then pyGetItem st.documents idx
        else none)

/-- `LLMAssistant._load_model`: fail when the stored path is `None`, empty
(falsy) or names no existing file; otherwise attempt the llama-cpp
constructor with the filename-derived parameters and, if that raises,
retry exactly once with `minimalParams`; a second failure returns the
first captured error message and leaves the state untouched. The result
mirrors the Python `(success, error_message)` pair, threaded with the
updated state. -/
def load_model (env : Env) (st : Assistant) : (Bool × String) × Assistant :=
  match st.model_path with
  | none => ((false, "Model path 'None' does not exist"), st)
  | some p =>
    if p = "" || !env.pathExists p then
      ((false, s!"Model path '{p}' does not exist"), st)
    else
      let params := get_model_params p
      match env.llamaInit p params with
      | .ok _ => ((true, ""), { st with model := some ⟨p, params⟩ })
      | .error e =>
        let error_msg := s!"Error loading model: {e}"
        match env.llamaInit p minimalParams with
        | .ok _ => ((true, ""), { st with model := some ⟨p, minimalParams⟩ })
        | .error _ => ((false, error_msg), st)

/-- `LLMAssistant.set_model_path`: store the new path, then try to load. -/
def set_model_path (env : Env) (st : Assistant) (model_path : String) :
    (Bool × String) × Assistant :=
  load_model env { st with model_path := some model_path }

/-- `LLMAssistant.generate_response`: the fixed no-model sentinel when no
model is loaded; otherwise one engine call with temperature 0.7,
repetition penalty 1.1 and prompt echo disabled, any raised exception
being converted into an error-describing answer string. -/
def generate_response (env : Env) (st : Assistant) (prompt : String)
    (max_tokens : Nat) : String :=
  match st.model with
  | none => "Model not loaded. Please set a valid model path first."
  | some m =>
    match env.llamaGen m prompt
        { max_tokens := max_tokens, temperature := 7 / 10,
          repeat_penalty := 11 / 10, echo := false } with
    | .ok text => text
    | .error e => s!"Error generating response: {e}"

/-- The context block `answer_with_context` builds: one
"Document i: Title / Content" entry per retrieved document, in order. -/
def buildContext (docs : List Doc) : String :=
  docs.enum.foldl
    (fun acc p =>
      acc ++ s!"Document {p.1 + 1}:\nTitle: {p.2.title}\n"
          ++ s!"Content: {p.2.content}\n\n")
    ""

/-- The exact prompt template of `answer_with_context` (the Python
triple-quoted f-string, including its embedded indentation). -/
def mkPrompt (context query : String) : String :=
  "<|system|>You are the Memex, a helpful assistant that answers queries in brief summaries.<|end|>\n        <|user|>Based on the following information:\n\n"
    ++ context
    ++ "\n\nAnswer this question: " ++ query ++ "<|end|>\n\n<|assistant|>Answer:"

/-- The `{answer, sources}` payload of the pipeline and the endpoint. -/
structure LLMAnswer where
  answer : String
  sources : List Doc
deriving DecidableEq, Repr

/-- `LLMAssistant.answer_with_context`: retrieve the top 3 documents, build
the context block and prompt, generate, and return the answer with the
retrieved documents as sources. -/
def answer_with_context (env : Env) (st : Assistant) (query : String)
    (max_tokens : Nat) : LLMAnswer :=
  let relevant_docs := search_documents env st query 3
  let context := buildContext relevant_docs
  let prompt := mkPrompt context query
  let answer := generate_response env st prompt max_tokens
  { answer := answer, sources := relevant_docs }

/-- The `POST /llm/ask` endpoint `ask_llm` of `main.py`: index all notes,
then either answer with context (model loaded) or return the endpoint
no-model sentinel with a direct top-5 search as sources. An exception
raised by `index_documents` (empty notes table) propagates out of the
endpoint unhandled; the assistant keeps the state mutated so far. -/
def ask_llm (env : Env) (st : Assistant) (notes : List Doc) (query : String)
    (max_tokens : Nat) : Except String LLMAnswer × Assistant :=
  match index_documents env st notes with
  | (.error e, st1) => (.error e, st1)
  | (.ok _, st1) =>
    match st1.model with
    | some _ => (.ok (answer_with_context env st1 query max_tokens), st1)
    | none =>
      (.ok { answer := "No LLM model is currently loaded. Please upload a model first.",
             sources := search_documents env st1 query 5 }, st1)

example : get_model_params "phi.gguf" =
    { n_ctx := 2048, n_threads := 4, n_gpu_layers := 0, n_batch := none } := by
  decide

example : get_model_params "Mistral-7B-q4_0.gguf" =
    { n_ctx := 4096, n_threads := 4, n_gpu_layers := 0, n_batch := some 512 } := by
  decide

example : get_model_params "models/llama-3-8b.gguf" =
    { n_ctx := 4096, n_threads := 4, n_gpu_layers := 0, n_batch := none } := by
  decide

/-! Concrete fixtures for counterexamples and witnesses. -/

/-- A first concrete note. -/
def docA : Doc := { id := 0, title := "A", content := "a" }

/-- A second concrete note. -/
def docB : Doc := { id := 1, title := "B", content := "b" }

/-- A concrete deterministic encoder over one-dimensional vectors: the
text of `docA` encodes far from the query, the text of `docB` close to
it. -/
def encodeCE : String → List Int := fun t =>
  if t = "A\na" then [0] else if t = "B\nb" then [10] else [9]

/-- Environment for the search counterexamples: only `encode` is ever
reached on these runs. -/
def envCE : Env :=
  { pathExists := fun _ => false,
    llamaInit := fun _ _ => .error "never called",
    llamaGen := fun _ _ _ => .error "never called",
    encode := encodeCE }

/-- Stub environment for witnesses that never touch the filesystem or the
engine. -/
def envStub : Env :=
  { pathExists := fun _ => false,
    llamaInit := fun _ _ => .error "stub",
    llamaGen := fun _ _ _ => .error "stub",
    encode := fun _ => [0] }

example :
    search_documents envCE (index_documents envCE initAssistant [docA, docB]).2 "q" 3
      = [docB, docA, docB] := by decide

example :
    search_documents envCE (index_documents envCE initAssistant [docA]).2 "q" 2
      = [docA, docA] := by decide

/-! Helper lemmas. -/

/-- `filterMap` never lengthens a list. -/
theorem filterMap_length_le {α β : Type} (f : α → Option β) (l : List α) :
    (l.filterMap f).length ≤ l.length := by
  induction l with
  | nil => simp
  | cons a l ih =>
    rw [List.filterMap_cons]
    cases f a with
    | none => exact Nat.le_succ_of_le ih
    | some b => simpa using ih

/-- The faiss label row always has exactly `k` entries (real labels padded
with `-1` up to `k`). -/
theorem faissSearchLabels_length (vectors : List (List Int)) (q : List Int)
    (k : Nat) : (faissSearchLabels vectors q k).length = k := by
  unfold faissSearchLabels
  simp only [List.length_append, List.length_map, List.length_take,
    List.length_replicate]
  omega

/-- `search_documents` returns at most `top_k` documents. -/
theorem search_documents_length_le (env : Env) (st : Assistant) (q : String)
    (k : Nat) : (search_documents env st q k).length ≤ k := by
  unfold search_documents
  cases st.index with
  | none => simp
  | some vectors =>
    by_cases h : st.documents.isEmpty
    · simp [h]
    · simp only [h]
      calc (List.filterMap _ (faissSearchLabels vectors (env.encode q) k)).length
          ≤ (faissSearchLabels vectors (env.encode q) k).length :=
            filterMap_length_le _ _
        _ = k := faissSearchLabels_length _ _ _

/-- On a nonempty corpus `index_documents` succeeds: it returns the count
and the state with both collections replaced together. -/
theorem index_documents_nonempty (env : Env) (st : Assistant)
    (docs : List Doc) (h : docs ≠ []) :
    index_documents env st docs =
      (.ok docs.length,
        { st with
            documents := docs
            index := some ((docs.map
              (fun doc => doc.title ++ "\n" ++ doc.content)).map env.encode) }) := by
  have hne : docs.isEmpty = false := by
    cases docs with
    | nil => exact absurd rfl h
    | cons a l => rfl
  simp [index_documents, hne]

/-- On an empty corpus `index_documents` ends in the error outcome with
the document list replaced and the previous index untouched. -/
theorem index_documents_empty (env : Env) (st : Assistant) :
    index_documents env st [] =
      (.error "IndexError: tuple index out of range",
        { st with documents := [] }) := rfl

/-! The claim theorems. -/

/-- Claim C1: refuted on the code as stated. After building over the two
documents `[docA, docB]` (with `docB`, inserted second, closer to the
query), `search` with `k = 3 > 2` returns `[docB, docA, docB]`: the faiss
padding label `-1` passes the `idx < len(self.documents)` guard and
Python subscription appends the last document again, so the sequence of
squared L2 distances from the query encoding to the returned documents is
`[1, 81, 1]`, which is not non-decreasing. -/
theorem search_padding_breaks_distance_order :
    search_documents envCE (index_documents envCE initAssistant [docA, docB]).2
        "q" 3 = [docB, docA, docB] ∧
    (search_documents envCE (index_documents envCE initAssistant [docA, docB]).2
        "q" 3).map
      (fun d => sqDist (envCE.encode "q")
        (envCE.encode (d.title ++ "\n" ++ d.content))) = [1, 81, 1] ∧
    ¬ List.Pairwise (fun a b : Int => a ≤ b) [1, 81, 1] := by
  refine ⟨by decide, by decide, fun h => ?_⟩
  exact absurd ((List.pairwise_cons.mp (List.pairwise_cons.mp h).2).1 1
    (by decide)) (by decide)

/-- Claim C2: refuted on the code as stated. With one indexed document and
`k = 2`, `search` returns the document twice: the faiss padding label
`-1` passes the guard and selects `documents[-1]`, so the result is
`[docA, docA]`, not the corpus exactly once. -/
theorem search_k_exceeding_corpus_duplicates :
    search_documents envCE (index_documents envCE initAssistant [docA]).2
        "q" 2 = [docA, docA] ∧
    (search_documents envCE (index_documents envCE initAssistant [docA]).2
        "q" 2).length ≠ 1 ∧
    List.count docA
      (search_documents envCE (index_documents envCE initAssistant [docA]).2
        "q" 2) = 2 := by
  decide

/-- Claim C9: search on an unbuilt index or an empty document corpus
returns the empty list (and, being a total function, never fails). -/
theorem search_documents_empty_ok (env : Env) (st : Assistant) (q : String)
    (k : Nat) (h : st.index = none ∨ st.documents = []) :
    search_documents env st q k = [] := by
  unfold search_documents
  rcases h with h | h
  · rw [h]
  · cases hi : st.index with
    | none => rfl
    | some vectors => simp [h]

/-- Witness for C9: the freshly constructed assistant has no index, and
search on it returns the empty list. -/
theorem search_documents_empty_ok_witness :
    search_documents envStub initAssistant "anything" 5 = [] :=
  search_documents_empty_ok envStub initAssistant "anything" 5 (Or.inl rfl)

/-- Claim C3: for a stored path naming an existing file, `_load_model`
first attempts the engine constructor with the filename-derived
parameters; on success the model is loaded with those parameters. If the
first attempt raises, it retries exactly once with the fixed minimal
parameters (context window 2048, one thread, no GPU): a successful retry
yields a success result with the state Loaded under the minimal
parameters, and a failed retry yields a failure result carrying the first
captured error message with the whole state — in particular any
previously active model — left untouched. -/
theorem load_model_retry (env : Env) (st : Assistant) (p : String)
    (hpath : st.model_path = some p) (hne : p ≠ "")
    (hex : env.pathExists p = true) :
    (∀ u : Unit, env.llamaInit p (get_model_params p) = .ok u →
      load_model env st =
        ((true, ""), { st with model := some ⟨p, get_model_params p⟩ })) ∧
    (∀ e₁, env.llamaInit p (get_model_params p) = .error e₁ →
      (∀ u : Unit, env.llamaInit p minimalParams = .ok u →
        load_model env st =
          ((true, ""), { st with model := some ⟨p, minimalParams⟩ })) ∧
      (∀ e₂, env.llamaInit p minimalParams = .error e₂ →
        load_model env st =
          ((false, s!"Error loading model: {e₁}"), st))) := by
  refine ⟨fun u h1 => ?_, fun e₁ h1 => ⟨fun u h2 => ?_, fun e₂ h2 => ?_⟩⟩ <;>
    (unfold load_model; rw [hpath]; simp [hne, hex, h1]) <;>
    simp [h2]

/-- Environment for the C3 witness: every path exists, the constructor
raises under any parameters other than the minimal ones. -/
def envRetry : Env :=
  { pathExists := fun _ => true,
    llamaInit := fun _ params =>
      if params = minimalParams then .ok () else .error "boom",
    llamaGen := fun _ _ _ => .error "stub",
    encode := fun _ => [0] }

/-- Assistant state for the C3 witness: a stored model path, nothing
loaded. -/
def stRetry : Assistant := { initAssistant with model_path := some "m.gguf" }

/-- Witness for C3: with a constructor that rejects the derived parameters
(4 threads) but accepts the minimal ones, loading succeeds and ends with
the minimal parameters. -/
theorem load_model_retry_witness :
    load_model envRetry stRetry =
      ((true, ""), { stRetry with model := some ⟨"m.gguf", minimalParams⟩ }) := by
  have h := load_model_retry envRetry stRetry "m.gguf" rfl (by decide) rfl
  have h1 : envRetry.llamaInit "m.gguf" (get_model_params "m.gguf") =
      .error "boom" := by rfl
  exact ((h.2 "boom" h1).1 () (by rfl))

/-- Claim C4: refuted on the code as stated. Starting from the fresh
(Unloaded) assistant, `set_model_path` on a path naming no existing file
does return a failure result, but it does not leave the active-model
state unchanged: the stored `model_path` is overwritten with the failed
path before the load attempt. -/
theorem set_model_path_mutates_path :
    (set_model_path envStub initAssistant "missing.gguf").1.1 = false ∧
    (set_model_path envStub initAssistant "missing.gguf").2.model_path ≠
      initAssistant.model_path := by
  decide

/-- Claim C4 as amended: `set_model_path` on a path naming no existing
file fails immediately with the InvalidPathError-style message naming the
path, and the loaded model, documents and index are unchanged (an
Unloaded assistant stays Unloaded); the one state change is that the
stored `model_path` is overwritten with the failed path. -/
theorem set_model_path_invalid (env : Env) (st : Assistant) (p : String)
    (hex : env.pathExists p = false) :
    set_model_path env st p =
      ((false, s!"Model path '{p}' does not exist"),
        { st with model_path := some p }) := by
  unfold set_model_path load_model
  simp [hex]

/-- Witness for the amended C4: the concrete failed call, its error
message, and the state with only `model_path` changed. -/
theorem set_model_path_invalid_witness :
    set_model_path envStub initAssistant "missing.gguf" =
      ((false, "Model path 'missing.gguf' does not exist"),
        { initAssistant with model_path := some "missing.gguf" }) :=
  set_model_path_invalid envStub initAssistant "missing.gguf" rfl

/-- Claim C5: refuted on the code as stated. The filename `phi.gguf`
carries the recognized family marker `phi`, yet its derived context
window is the default 2048, not 4096: the `phi` family rule raises the
window only when the filename also contains `mini`. -/
theorem phi_marker_keeps_default_ctx :
    strContains (lowerStr (baseName "phi.gguf")) "phi" = true ∧
    get_model_params "phi.gguf" =
      { n_ctx := 2048, n_threads := 4, n_gpu_layers := 0, n_batch := none } ∧
    (get_model_params "phi.gguf").n_ctx ≠ 4096 := by
  decide

/-- Claim C5 as amended: `_get_model_params` is a pure function of the
lowercased basename of the path (so deterministic and case-insensitive);
thread count 4 and GPU layers 0 are produced regardless of filename; a
4-bit quantization token (`q4_0` or `q4_k_m`) sets batch size 512 and is
the only way the batch key appears; the context window is 2048 or 4096,
and it is 4096 exactly when the first matching family rule says so:
`llama`/`meta-llama` filenames that also contain `3` or `2`, `mistral`
filenames, `phi` filenames that also contain `mini`, and `gemma`
filenames — a family marker alone (such as `phi` without `mini`, or
`llama` without a generation digit) keeps the default 2048. -/
theorem get_model_params_family_rules (path : String) :
    (get_model_params path).n_threads = 4 ∧
    (get_model_params path).n_gpu_layers = 0 ∧
    ((get_model_params path).n_batch =
      if strContains (lowerStr (baseName path)) "q4_0"
          || strContains (lowerStr (baseName path)) "q4_k_m"
      then some 512 else none) ∧
    ((get_model_params path).n_ctx = 2048 ∨
      (get_model_params path).n_ctx = 4096) ∧
    ((get_model_params path).n_ctx = 4096 ↔
      (((strContains (lowerStr (baseName path)) "llama"
            || strContains (lowerStr (baseName path)) "meta-llama") = true ∧
        (strContains (lowerStr (baseName path)) "3" = true ∨
         strContains (lowerStr (baseName path)) "2" = true)) ∨
       ((strContains (lowerStr (baseName path)) "llama"
            || strContains (lowerStr (baseName path)) "meta-llama") = false ∧
        strContains (lowerStr (baseName path)) "mistral" = true) ∨
       ((strContains (lowerStr (baseName path)) "llama"
            || strContains (lowerStr (baseName path)) "meta-llama") = false ∧
        strContains (lowerStr (baseName path)) "mistral" = false ∧
        strContains (lowerStr (baseName path)) "phi" = true ∧
        strContains (lowerStr (baseName path)) "mini" = true) ∨
       ((strContains (lowerStr (baseName path)) "llama"
            || strContains (lowerStr (baseName path)) "meta-llama") = false ∧
        strContains (lowerStr (baseName path)) "mistral" = false ∧
        strContains (lowerStr (baseName path)) "phi" = false ∧
        strContains (lowerStr (baseName path)) "gemma" = true))) := by
  simp only [get_model_params]
  cases hl : (strContains (lowerStr (baseName path)) "llama"
      || strContains (lowerStr (baseName path)) "meta-llama") <;>
  cases h3 : strContains (lowerStr (baseName path)) "3" <;>
  cases h2 : strContains (lowerStr (baseName path)) "2" <;>
  cases hm : strContains (lowerStr (baseName path)) "mistral" <;>
  cases hp : strContains (lowerStr (baseName path)) "phi" <;>
  cases hn : strContains (lowerStr (baseName path)) "mini" <;>
  cases hg : strContains (lowerStr (baseName path)) "gemma" <;>
  cases hq : (strContains (lowerStr (baseName path)) "q4_0"
      || strContains (lowerStr (baseName path)) "q4_k_m") <;>
  simp_all

/-- Claim C6: refuted on the code as stated. With an empty notes table
and no model loaded, `ask` does not return the sentinel payload on that
call: `index_documents` raises (`embeddings.shape[1]` on the encoder's
shape-`(0,)` output for an empty batch) before the model branch is ever
reached, so the endpoint ends in the error outcome and yields no
answer/sources payload at all. -/
theorem ask_llm_empty_notes_raises :
    initAssistant.model = none ∧
    (ask_llm envStub initAssistant [] "q" 64).1 =
      .error "IndexError: tuple index out of range" ∧
    (ask_llm envStub initAssistant [] "q" 64).1 ≠
      .ok { answer := "No LLM model is currently loaded. Please upload a model first.",
            sources := [] } := by
  refine ⟨rfl, rfl, fun h => ?_⟩
  simp [ask_llm, index_documents] at h

/-- Claim C6 as amended: on every `ask` call over a nonempty notes list
the endpoint indexes the notes and then branches on the loaded model:
with no model it returns the fixed endpoint sentinel with the documents
of a direct top-5 search (hence at most 5); with a model loaded it
returns the generation pipeline's output — the answer produced by
`answer_with_context`, not the sentinel constant — whose sources are the
top-3 retrieval (hence at most 3). (With an empty notes list the call
instead raises from the index rebuild and returns no payload.) -/
theorem ask_llm_asymmetry_nonempty (env : Env) (st : Assistant)
    (notes : List Doc) (q : String) (mt : Nat) (hnotes : notes ≠ []) :
    (st.model = none →
      (ask_llm env st notes q mt).1 =
        .ok { answer := "No LLM model is currently loaded. Please upload a model first.",
              sources := search_documents env (index_documents env st notes).2 q 5 } ∧
      (search_documents env (index_documents env st notes).2 q 5).length ≤ 5) ∧
    (∀ m, st.model = some m →
      (ask_llm env st notes q mt).1 =
        .ok (answer_with_context env (index_documents env st notes).2 q mt) ∧
      (answer_with_context env (index_documents env st notes).2 q mt).sources =
        search_documents env (index_documents env st notes).2 q 3 ∧
      (answer_with_context env (index_documents env st notes).2 q mt).sources.length
        ≤ 3) := by
  have hidx := index_documents_nonempty env st notes hnotes
  refine ⟨fun hm => ⟨?_, search_documents_length_le env
      (index_documents env st notes).2 q 5⟩,
    fun m hm => ⟨?_, rfl, search_documents_length_le env
      (index_documents env st notes).2 q 3⟩⟩
  · simp only [ask_llm, hidx, hm]
  · simp only [ask_llm, hidx, hm]

/-- Witness for the amended C6: a concrete call over one note with no
model loaded returns the endpoint sentinel payload (here the top-5
search, through the padding slip, returns the single note five times). -/
theorem ask_llm_asymmetry_nonempty_witness :
    (ask_llm envStub initAssistant [docA] "q" 64).1 =
      .ok { answer := "No LLM model is currently loaded. Please upload a model first.",
            sources := [docA, docA, docA, docA, docA] } := by
  have h := ((ask_llm_asymmetry_nonempty envStub initAssistant [docA] "q" 64
    (by decide)).1 rfl).1
  rw [h]
  rfl

/-- Claim C7: with a model loaded, `generate_response` makes one engine
call with sampling temperature 0.7, repetition penalty 1.1 and prompt
echo disabled; a successful call's text is returned as-is, and a raised
exception is caught and returned as an answer string describing the
error, never propagated (the embedded function is total). -/
theorem generate_response_fixed_sampling (env : Env) (st : Assistant)
    (prompt : String) (mt : Nat) (m : LoadedModel) (hm : st.model = some m) :
    (∀ t, env.llamaGen m prompt
        { max_tokens := mt, temperature := 7 / 10, repeat_penalty := 11 / 10,
          echo := false } = .ok t →
      generate_response env st prompt mt = t) ∧
    (∀ e, env.llamaGen m prompt
        { max_tokens := mt, temperature := 7 / 10, repeat_penalty := 11 / 10,
          echo := false } = .error e →
      generate_response env st prompt mt =
        s!"Error generating response: {e}") := by
  constructor <;> intro x hx <;> simp [generate_response, hm, hx]

/-- Assistant state with a loaded model, for the generation witnesses. -/
def stGen : Assistant :=
  { initAssistant with model := some ⟨"m.gguf", minimalParams⟩ }

/-- Witness for C7: a concrete generation call whose engine raises is
absorbed into an error-describing answer string. -/
theorem generate_response_fixed_sampling_witness :
    generate_response envStub stGen "hi" 64 =
      "Error generating response: stub" :=
  (generate_response_fixed_sampling envStub stGen "hi" 64
    ⟨"m.gguf", minimalParams⟩ rfl).2 "stub" rfl

/-- Claim C8: refuted on the code as stated. After building over the one
document `[docA]` (one stored vector), calling `index_documents` with the
empty corpus replaces the document list, then raises `IndexError` at
`dimension = embeddings.shape[1]` (the encoder returns a shape-`(0,)`
array for an empty batch) before the vector store is touched: no count is
returned, and the state is left torn with 1 stored vector against 0
stored documents — exactly the one-without-the-other replacement the
claim (and the spec invariant) rule out. -/
theorem index_documents_empty_tears_state :
    (index_documents envCE (index_documents envCE initAssistant [docA]).2 []).1
      = .error "IndexError: tuple index out of range" ∧
    (index_documents envCE
        (index_documents envCE initAssistant [docA]).2 []).2.documents = [] ∧
    (index_documents envCE
        (index_documents envCE initAssistant [docA]).2 []).2.index
      = some [[0]] ∧
    ((index_documents envCE
        (index_documents envCE initAssistant [docA]).2 []).2.index.getD []).length
      ≠ (index_documents envCE
          (index_documents envCE initAssistant [docA]).2 []).2.documents.length := by
  exact ⟨rfl, rfl, rfl, by decide⟩

/-- Claim C10: `answer_with_context` with no model loaded does not fail:
it still performs the top-3 retrieval, and returns the pipeline-level
sentinel answer with the at most 3 retrieved documents as sources — a
sentinel string and source count distinct from the endpoint-level
fallback (which uses the other sentinel and a top-5 search). -/
theorem answer_with_context_no_model (env : Env) (st : Assistant)
    (q : String) (mt : Nat) (h : st.model = none) :
    answer_with_context env st q mt =
      { answer := "Model not loaded. Please set a valid model path first.",
        sources := search_documents env st q 3 } ∧
    (answer_with_context env st q mt).sources.length ≤ 3 ∧
    "Model not loaded. Please set a valid model path first." ≠
      "No LLM model is currently loaded. Please upload a model first." := by
  refine ⟨?_, search_documents_length_le _ _ _ _, by decide⟩
  simp [answer_with_context, generate_response, h]

/-- Witness for C10: the concrete pipeline call on an unbuilt index with
no model loaded returns the pipeline sentinel and no sources. -/
theorem answer_with_context_no_model_witness :
    answer_with_context envStub initAssistant "q" 64 =
      { answer := "Model not loaded. Please set a valid model path first.",
        sources := [] } := by
  have h := answer_with_context_no_model envStub initAssistant "q" 64 rfl
  rw [h.1]
  rfl

end AWMT
